import Mathlib

/-!
Verification development for the single-file Streamlit application
`app.py` ("Advanced CSV Analyst").  The program state (dataset plus chat
transcript), the upload handler, the chat handler, the model-reply
interpreter and the fence-stripping pipeline are embedded as executable
Lean definitions, translated from the source.  External collaborators
(the pandas CSV reader, the network call to the model, the dynamic
execution of model-supplied code, and chart truthiness) enter as
explicit function parameters, since their behaviour is outside the
program; the JSON decoder of the Python standard library is modelled
concretely below.
-/

/-! ## Python string primitives used by `app.py` -/

/-- Whitespace characters stripped by the Python method `str.strip()`. -/
def pyIsSpace (c : Char) : Bool :=
  c = ' ' || c = '\t' || c = '\n' || c = '\r' || c = '\x0b' || c = '\x0c'

/-- Model of the Python method `str.strip()`: remove leading and trailing
whitespace. -/
def pyStrip (s : String) : String :=
  String.mk (((s.data.dropWhile pyIsSpace).reverse.dropWhile pyIsSpace).reverse)

/-- One left-to-right pass replacing each non-overlapping occurrence of
`pat` by `repl`, as the Python method `str.replace` does for a non-empty
pattern.  The fuel argument is the length of the scanned list: every
recursive call consumes at least one character, so the fuel never runs
out on the actual argument. -/
def pyReplaceAux (pat repl : List Char) : Nat → List Char → List Char
  | 0, s => s
  | fuel + 1, s =>
    match s with
    | [] => []
    | c :: rest =>
      if pat ≠ [] && pat.isPrefixOf s then
        repl ++ pyReplaceAux pat repl fuel (s.drop pat.length)
      else
        c :: pyReplaceAux pat repl fuel rest

/-- Model of the Python method `str.replace(pat, repl)` for a non-empty
pattern (both patterns used by `app.py` are non-empty; for an empty
pattern this model returns the string unchanged). -/
def pyReplace (s pat repl : String) : String :=
  String.mk (pyReplaceAux pat.data repl.data s.data.length s.data)

/-- The fenced-JSON opening marker removed in `get_gemini_response`
(app.py line 37). -/
def fenceJsonMarker : String := "```json"

/-- The bare code-fence marker removed in `get_gemini_response`
(app.py line 37). -/
def fenceMarker : String := "```"

/-- The cleaning pipeline of `get_gemini_response` (app.py line 37):
`response.text.strip().replace("```json", "").replace("```", "").strip()`. -/
def stripFences (s : String) : String :=
  pyStrip (pyReplace (pyReplace (pyStrip s) fenceJsonMarker "") fenceMarker "")

/-! ## Values produced by the JSON decoder

Model of the values `json.loads` can return.  Numbers keep their raw
lexeme, since no claim compares numeric values. -/

inductive Json where
  | null
  | bool (b : Bool)
  | num (raw : String)
  | str (s : String)
  | arr (items : List Json)
  | obj (entries : List (String × Json))
deriving Repr

/-- Python truthiness of every digit of a JSON number lexeme being zero:
the number denotes zero exactly when its mantissa has no nonzero digit
(exponents cannot make a nonzero mantissa zero). -/
def jsonNumIsZero (raw : String) : Bool :=
  (raw.data.takeWhile (fun c => c ≠ 'e' && c ≠ 'E')).all
    (fun c => !c.isDigit || c = '0')

/-- Python truthiness of a decoded JSON value, as tested by
`if response_data:` (app.py line 147) and `if python_code:` (line 153). -/
def Json.isTruthy : Json → Bool
  | .null => false
  | .bool b => b
  | .num raw => !jsonNumIsZero raw
  | .str s => s ≠ ""
  | .arr elems => !elems.isEmpty
  | .obj members => !members.isEmpty

/-- Lookup in a decoded JSON object, as the Python method `dict.get`:
when the decoder saw duplicate keys the later member wins, as in the
dict built by `json.loads`. -/
def dictGet (members : List (String × Json)) (k : String) : Option Json :=
  match members.reverse.find? (fun p => p.1 == k) with
  | some p => some p.2
  | none => none

/-! ## The JSON decoder

Model of `json.loads` (Python standard library, called at app.py
line 38): a strict recursive-descent parser over the character list.
Simplifications that do not affect any claim: `NaN` and `Infinity`
literals are rejected, a `\u` escape is decoded without surrogate-pair
combination, and number lexemes are kept raw. -/

/-- Whitespace accepted between JSON tokens. -/
def jsonWs (c : Char) : Bool :=
  c = ' ' || c = '\t' || c = '\n' || c = '\r'

/-- Drop leading inter-token whitespace. -/
def skipWs (s : List Char) : List Char := s.dropWhile jsonWs

/-- The opening-brace character of a JSON object. -/
def lbraceC : Char := '\x7b'

/-- The closing-brace character of a JSON object. -/
def rbraceC : Char := '\x7d'

/-- Value of a hexadecimal digit, if the character is one (digits,
lowercase a-f at code points 97-102, uppercase A-F at 65-70). -/
def hexDigit (c : Char) : Option Nat :=
  let n := c.toNat
  if 48 ≤ n && n ≤ 57 then some (n - 48)
  else if 97 ≤ n && n ≤ 102 then some (n - 87)
  else if 65 ≤ n && n ≤ 70 then some (n - 55)
  else none

/-- Translate a single-character escape of a JSON string literal. -/
def escChar (c : Char) : Option Char :=
  if c = '"' then some '"'
  else if c = '\\' then some '\\'
  else if c = '/' then some '/'
  else if c = 'b' then some '\x08'
  else if c = 'f' then some '\x0c'
  else if c = 'n' then some '\n'
  else if c = 'r' then some '\r'
  else if c = 't' then some '\t'
  else none

/-- Parse the body of a JSON string literal, after its opening quote,
returning the decoded characters and the input after the closing
quote. -/
def parseStrBody : List Char → Option (List Char × List Char)
  | [] => none
  | c :: rest =>
    if c = '"' then some ([], rest)
    else if c = '\\' then
      match rest with
      | [] => none
      | e :: rest2 =>
        if e = 'u' then
          match rest2 with
          | a :: b :: c3 :: d :: rest3 =>
            match hexDigit a, hexDigit b, hexDigit c3, hexDigit d with
            | some ha, some hb, some hc, some hd =>
              match parseStrBody rest3 with
              | some (cs, rem) =>
                some (Char.ofNat (((ha * 16 + hb) * 16 + hc) * 16 + hd) :: cs, rem)
              | none => none
            | _, _, _, _ => none
          | _ => none
        else
          match escChar e with
          | some ec =>
            match parseStrBody rest2 with
            | some (cs, rem) => some (ec :: cs, rem)
            | none => none
          | none => none
    else if c.toNat < 32 then none
    else
      match parseStrBody rest with
      | some (cs, rem) => some (c :: cs, rem)
      | none => none

/-- Longest leading run of decimal digits, with the remainder. -/
def spanDigits (s : List Char) : List Char × List Char :=
  (s.takeWhile Char.isDigit, s.dropWhile Char.isDigit)

/-- Parse the optional fraction part of a JSON number. -/
def parseFracPart (s : List Char) : Option (List Char × List Char) :=
  match s with
  | c :: rest =>
    if c = '.' then
      match spanDigits rest with
      | ([], _) => none
      | (ds, rest2) => some (c :: ds, rest2)
    else some ([], s)
  | [] => some ([], [])

/-- Parse the optional exponent part of a JSON number. -/
def parseExpPart (s : List Char) : Option (List Char × List Char) :=
  match s with
  | c :: rest =>
    if c = 'e' || c = 'E' then
      let (sign, rest2) :=
        match rest with
        | c2 :: rest3 => if c2 = '+' || c2 = '-' then ([c2], rest3) else ([], rest)
        | [] => ([], [])
      match spanDigits rest2 with
      | ([], _) => none
      | (ds, rest3) => some (c :: (sign ++ ds), rest3)
    else some ([], s)
  | [] => some ([], [])

/-- Parse a JSON number lexeme, returning the lexeme and the rest. -/
def parseNumAux (s : List Char) : Option (List Char × List Char) :=
  let (neg, s1) :=
    match s with
    | c :: rest => if c = '-' then ([c], rest) else (([] : List Char), s)
    | [] => ([], [])
  match s1 with
  | [] => none
  | c :: rest =>
    if c = '0' then
      match parseFracPart rest with
      | none => none
      | some (fr, rest2) =>
        match parseExpPart rest2 with
        | none => none
        | some (ex, rest3) => some (neg ++ c :: (fr ++ ex), rest3)
    else if c.isDigit then
      let (ds, rest1) := spanDigits rest
      match parseFracPart rest1 with
      | none => none
      | some (fr, rest2) =>
        match parseExpPart rest2 with
        | none => none
        | some (ex, rest3) => some (neg ++ c :: (ds ++ fr ++ ex), rest3)
    else none

/-- Selector for the three recursion modes of the decoder: a value, the
members of an object after its opening brace, or the elements of an
array after its opening bracket.  The Boolean records whether the next
token may close the container immediately. -/
inductive JMode where
  | val
  | objMembers (first : Bool)
  | arrElems (first : Bool)

/-- Result of one decoder recursion: a value, object members, or array
elements. -/
inductive JOut where
  | v (j : Json)
  | kv (l : List (String × Json))
  | el (l : List Json)

/-- Core of the JSON decoder.  Fuel decreases at every recursive call;
each call except the element-to-value hop consumes at least one input
character first, so twice the input length plus a constant suffices. -/
def parseCore : Nat → JMode → List Char → Option (JOut × List Char)
  | 0, _, _ => none
  | fuel + 1, JMode.val, input =>
    match skipWs input with
    | [] => none
    | c :: rest =>
      if c = lbraceC then
        match parseCore fuel (JMode.objMembers true) rest with
        | some (JOut.kv l, rest2) => some (JOut.v (Json.obj l), rest2)
        | _ => none
      else if c = '[' then
        match parseCore fuel (JMode.arrElems true) rest with
        | some (JOut.el l, rest2) => some (JOut.v (Json.arr l), rest2)
        | _ => none
      else if c = '"' then
        match parseStrBody rest with
        | some (cs, rest2) => some (JOut.v (Json.str (String.mk cs)), rest2)
        | none => none
      else if c = 't' then
        if rest.take 3 = ['r', 'u', 'e'] then
          some (JOut.v (Json.bool true), rest.drop 3)
        else none
      else if c = 'f' then
        if rest.take 4 = ['a', 'l', 's', 'e'] then
          some (JOut.v (Json.bool false), rest.drop 4)
        else none
      else if c = 'n' then
        if rest.take 3 = ['u', 'l', 'l'] then
          some (JOut.v Json.null, rest.drop 3)
        else none
      else
        match parseNumAux (c :: rest) with
        | some (lex, rest2) => some (JOut.v (Json.num (String.mk lex)), rest2)
        | none => none
  | fuel + 1, JMode.objMembers first, input =>
    match skipWs input with
    | [] => none
    | c :: rest =>
      if first && c = rbraceC then some (JOut.kv [], rest)
      else if c = '"' then
        match parseStrBody rest with
        | none => none
        | some (kcs, rest2) =>
          match skipWs rest2 with
          | [] => none
          | c2 :: rest3 =>
            if c2 = ':' then
              match parseCore fuel JMode.val rest3 with
              | some (JOut.v v, rest4) =>
                match skipWs rest4 with
                | [] => none
                | c3 :: rest5 =>
                  if c3 = ',' then
                    match parseCore fuel (JMode.objMembers false) rest5 with
                    | some (JOut.kv l, rest6) =>
                      some (JOut.kv ((String.mk kcs, v) :: l), rest6)
                    | _ => none
                  else if c3 = rbraceC then
                    some (JOut.kv [(String.mk kcs, v)], rest5)
                  else none
              | _ => none
            else none
      else none
  | fuel + 1, JMode.arrElems first, input =>
    match skipWs input with
    | [] => none
    | c :: rest =>
      if first && c = ']' then some (JOut.el [], rest)
      else
        match parseCore fuel JMode.val input with
        | some (JOut.v v, rest2) =>
          match skipWs rest2 with
          | [] => none
          | c2 :: rest3 =>
            if c2 = ',' then
              match parseCore fuel (JMode.arrElems false) rest3 with
              | some (JOut.el l, rest4) => some (JOut.el (v :: l), rest4)
              | _ => none
            else if c2 = ']' then some (JOut.el [v], rest3)
            else none
        | _ => none

/-- Model of `json.loads` (app.py line 38): decode one JSON value and
reject trailing non-whitespace input. -/
def jsonParse (s : String) : Option Json :=
  match parseCore (2 * s.length + 8) JMode.val s.data with
  | some (JOut.v j, rest) => if skipWs rest = [] then some j else none
  | _ => none

example : jsonParse "null" = some Json.null := by rfl
example : jsonParse "not json" = none := by rfl
example : jsonParse " \x7b\"answer\": \"hi\", \"python_code\": null\x7d " =
    some (Json.obj [("answer", Json.str "hi"), ("python_code", Json.null)]) := by rfl
example : jsonParse "[1, true, \"a\"]" =
    some (Json.arr [Json.num "1", Json.bool true, Json.str "a"]) := by rfl
example : jsonParse "\x7b\"a\": 1\x7d x" = none := by rfl
example : stripFences " ```json\x7b\"a\": 1\x7d``` " = "\x7b\"a\": 1\x7d" := by rfl
example : stripFences "a```b```json c``` d" = "ab c d" := by rfl

/-! ## Program state and external collaborators -/

/-- The in-memory tabular structure produced by the CSV reader: column
names and rows of cell values.  Only the column list and the row count
are ever inspected by a claim; `pd.read_csv` itself is external and
enters as an `Option Dataframe` (its raised exception is `none`). -/
structure Dataframe where
  cols : List String
  rows : List (List String)
deriving DecidableEq, Repr

/-- One entry of `st.session_state.messages`: the dicts built at app.py
lines 136 and 171.  A user entry has no chart key, modelled as
`chart = none`. -/
structure Message (χ : Type) where
  role : String
  content : Json
  chart : Option χ

/-- The session state of the program: `st.session_state.dataframe` and
`st.session_state.messages` (app.py lines 100-103). -/
structure SessionState (χ : Type) where
  dataframe : Option Dataframe
  messages : List (Message χ)

/-- The state after the initialisation at app.py lines 100-103 in a
fresh session: no dataframe and an empty transcript. -/
def initialState (χ : Type) : SessionState χ :=
  { dataframe := none, messages := [] }

/-- Outcome of `exec(python_code, globals(), local_scope)` followed by
`local_scope.get('fig')` (app.py lines 157-159): the code either ran to
completion leaving an optional value bound to the name `fig`, or raised
an exception. -/
inductive ExecOutcome (χ : Type) where
  | ok (fig : Option χ)
  | raised

/-- Behaviour of the external collaborators during one script run.  The
type `χ` stands for the chart objects produced by executed code. -/
structure Externals (χ : Type) where
  /-- Rendering of `df.describe(include='all').to_string()` (app.py
  line 54); pandas is external. -/
  describe : Dataframe → String
  /-- `model.generate_content(prompt).text` (app.py line 35): `none`
  when the call raised. -/
  apiRespond : String → Option String
  /-- Execution of the model-supplied code (app.py lines 157-159). -/
  runCode : Json → ExecOutcome χ
  /-- Python truthiness of a chart object, as tested by `if fig:`
  (app.py line 167). -/
  chartTruthy : χ → Bool

mutual

/-- Rendering of a transcript entry content by the Python builtin `str`
inside the history f-string (app.py line 58).  Contents are strings in
every reachable transcript; container values are rendered without the
element quoting of the Python repr, which no claim observes. -/
def pyStr : Json → String
  | .null => "None"
  | .bool true => "True"
  | .bool false => "False"
  | .num raw => raw
  | .str s => s
  | .arr elems => "[" ++ pyStrElems elems ++ "]"
  | .obj members => "\x7b" ++ pyStrMembers members ++ "\x7d"

/-- Comma-separated rendering of array elements. -/
def pyStrElems : List Json → String
  | [] => ""
  | [j] => pyStr j
  | j :: rest => pyStr j ++ ", " ++ pyStrElems rest

/-- Comma-separated rendering of object members. -/
def pyStrMembers : List (String × Json) → String
  | [] => ""
  | [(k, v)] => k ++ ": " ++ pyStr v
  | (k, v) :: rest => k ++ ": " ++ pyStr v ++ ", " ++ pyStrMembers rest

end

/-- The first component of `create_prompt` (app.py lines 49-55): the
data summary block. -/
def dataSummary (describe : Dataframe → String) (df : Dataframe) : String :=
  "\n    Here is a summary of the data:\n    - Column Names: " ++
    String.intercalate ", " df.cols ++
    "\n    - Number of rows: " ++ toString df.rows.length ++
    "\n    - Data Description (statistical summary):\n    " ++
    describe df ++ "\n    "

/-- Model of `create_prompt` (app.py lines 43-79): the templated prompt
built from the data summary, the formatted history and the question. -/
def create_prompt {χ : Type} (describe : Dataframe → String) (df : Dataframe)
    (user_question : String) (history : List (Message χ)) : String :=
  let formatted_history :=
    String.intercalate "\n" (history.map (fun m => m.role ++ ": " ++ pyStr m.content))
  "\n    You are an expert data analyst AI. Your user has uploaded a CSV file and will ask questions about it.\n    Analyze the data summary and the conversation history to answer the user\x27s latest question.\n\n    **Data Summary:**\n    " ++
    dataSummary describe df ++
    "\n\n    **Conversation History:**\n    " ++ formatted_history ++
    "\n\n    **User\x27s Latest Question:**\n    " ++ user_question ++
    "\n\n    **Your Task & Instructions:**\n    1.  Provide a clear, concise text answer to the user\x27s question in the \"answer\" field.\n    2.  If the question can be better answered with a visualization, generate the necessary Python code to create it using the Plotly library. The dataframe is available as a variable named `df`. Place this code in the \"python_code\" field.\n    3.  The Python code must create a Plotly figure object named 'fig'. For example: `import plotly.express as px; fig = px.bar(df, ...)`\n    4.  Return your response as a single, valid JSON object with two keys: \"answer\" (string) and \"python_code\" (string, or null if no chart is needed).\n    "

/-- Model of `get_gemini_response` (app.py lines 29-41): call the model,
strip fences, decode as JSON.  The Boolean records whether the error
banner of the except-branch was shown; the result is `none` exactly when
either the call or the decode raised, and `some` of the decoded value
otherwise. -/
def get_gemini_response (apiRespond : String → Option String) (prompt : String) :
    Option Json × Bool :=
  match apiRespond prompt with
  | none => (none, true)
  | some text =>
    match jsonParse (stripFences text) with
    | none => (none, true)
    | some j => (some j, false)

/-- The default answer text substituted when the reply lacks the
`answer` key (app.py line 148). -/
def defaultAnswer : String := "I couldn\x27t find a text answer."

/-- The fixed note appended to the answer when executing the supplied
code raised (app.py line 162). -/
def errorNote : String := "\n\n_Note: I tried to generate a chart but encountered an error._"

/-- The user transcript entry appended at app.py line 136. -/
def userMessage {χ : Type} (prompt : String) : Message χ :=
  { role := "user", content := Json.str prompt, chart := none }

/-- Observable effects of one execution of the chat handler. -/
structure ChatLog where
  /-- The error banner of `get_gemini_response` (app.py line 40). -/
  apiErrorShown : Bool := false
  /-- The banner for a raising execution (app.py line 161). -/
  execErrorShown : Bool := false
  /-- Whether `exec` was invoked at all (app.py line 158). -/
  execRan : Bool := false
  /-- Whether the handler raised an uncaught exception: `.get` on a
  decoded non-dict reply (lines 148-149), or appending the note to a
  non-string answer (line 162).  Session-state mutations made before the
  exception persist. -/
  crashed : Bool := false
  /-- The markdown rendering of the user prompt (app.py line 138). -/
  displayedUser : Option String := none
  /-- The markdown rendering of the answer (app.py line 166). -/
  displayedAnswer : Option Json := none
  /-- Whether a chart widget was rendered (app.py lines 167-168). -/
  chartShown : Bool := false

/-- Model of the chat handler (app.py lines 134-175): append the user
entry, build the prompt, interpret the model reply, optionally execute
its code, and append the assistant entry.  Returns the new transcript
and the observable effects. -/
def chatStep {χ : Type} (ext : Externals χ) (df : Dataframe)
    (msgs : List (Message χ)) (prompt : String) : List (Message χ) × ChatLog :=
  let msgs1 := msgs ++ [userMessage prompt]
  let full_prompt := create_prompt ext.describe df prompt msgs1
  match get_gemini_response ext.apiRespond full_prompt with
  | (none, e) =>
    (msgs1, { apiErrorShown := e, displayedUser := some prompt })
  | (some response_data, e) =>
    if response_data.isTruthy then
      match response_data with
      | Json.obj kvs =>
        let answer := (dictGet kvs "answer").getD (Json.str defaultAnswer)
        let python_code := (dictGet kvs "python_code").getD Json.null
        if python_code.isTruthy then
          match ext.runCode python_code with
          | ExecOutcome.ok fig =>
            (msgs1 ++ [{ role := "assistant", content := answer, chart := fig }],
             { apiErrorShown := e, execRan := true, displayedUser := some prompt,
               displayedAnswer := some answer,
               chartShown := match fig with | some x => ext.chartTruthy x | none => false })
          | ExecOutcome.raised =>
            match answer with
            | Json.str a =>
              (msgs1 ++ [{ role := "assistant",
                           content := Json.str (a ++ errorNote), chart := none }],
               { apiErrorShown := e, execErrorShown := true, execRan := true,
                 displayedUser := some prompt,
                 displayedAnswer := some (Json.str (a ++ errorNote)) })
            | _ =>
              (msgs1, { apiErrorShown := e, execErrorShown := true, execRan := true,
                        crashed := true, displayedUser := some prompt })
        else
          (msgs1 ++ [{ role := "assistant", content := answer, chart := none }],
           { apiErrorShown := e, displayedUser := some prompt,
             displayedAnswer := some answer })
      | _ =>
        (msgs1, { apiErrorShown := e, crashed := true, displayedUser := some prompt })
    else
      (msgs1, { apiErrorShown := e, displayedUser := some prompt })

/-- Observable effects of the upload handler. -/
structure UploadLog where
  /-- The success banner (app.py line 116). -/
  successShown : Bool := false
  /-- The file-read error banner (app.py line 119). -/
  readErrorShown : Bool := false
deriving DecidableEq, Repr

/-- Model of the upload handler body, the block under
`if uploaded_file is not None:` (app.py lines 108-120).  `parsed` is the
outcome of the external `pd.read_csv` (`none` when it raised).  The body
runs only when no dataframe is stored yet; on a successful read it
stores the dataframe and clears the transcript, on a failing read it
shows the error and leaves the dataframe unset. -/
def uploadStep {χ : Type} (parsed : Option Dataframe) (s : SessionState χ) :
    SessionState χ × UploadLog :=
  match s.dataframe with
  | some _ => (s, {})
  | none =>
    match parsed with
    | some df => ({ dataframe := some df, messages := [] }, { successShown := true })
    | none => ({ dataframe := none, messages := s.messages }, { readErrorShown := true })

/-- The user-interface inputs and external behaviours of one script
run (one Streamlit rerun of app.py). -/
structure RunInput (χ : Type) where
  /-- Whether reading the secret and configuring the API client
  succeeded (app.py lines 18-24). -/
  configOk : Bool
  /-- The file-uploader widget value: `none` when no file is present,
  otherwise the outcome of `pd.read_csv` on the file. -/
  uploadedFile : Option (Option Dataframe)
  /-- The chat-input widget value. -/
  chatInput : Option String
  /-- The external collaborators for this run. -/
  ext : Externals χ

/-- Observable effects of one script run. -/
structure RunLog (χ : Type) where
  /-- The configuration error banner (app.py line 22). -/
  configErrorShown : Bool := false
  /-- Whether `st.stop()` halted the script (app.py line 24). -/
  halted : Bool := false
  /-- Effects of the upload handler, when reached. -/
  upload : UploadLog := {}
  /-- The please-upload info banner (app.py line 178). -/
  infoShown : Bool := false
  /-- Effects of the chat handler, when it ran. -/
  chat : Option ChatLog := none

/-- Model of one top-to-bottom run of app.py: API configuration (halting
on failure), then the upload handler when a file is present, then the
chat handler when a dataframe is stored and a chat message was
entered. -/
def scriptRun {χ : Type} (inp : RunInput χ) (s : SessionState χ) :
    SessionState χ × RunLog χ :=
  if inp.configOk then
    let upl :=
      match inp.uploadedFile with
      | none => (s, ({} : UploadLog))
      | some parsed => uploadStep parsed s
    match (upl.1).dataframe with
    | some df =>
      match inp.chatInput with
      | some prompt =>
        let chat := chatStep inp.ext df (upl.1).messages prompt
        ({ dataframe := some df, messages := chat.1 },
         { upload := upl.2, chat := some chat.2 })
      | none => (upl.1, { upload := upl.2 })
    | none => (upl.1, { upload := upl.2, infoShown := true })
  else
    (s, { configErrorShown := true, halted := true })

/-- The session states reachable from a fresh session by any sequence of
script runs. -/
inductive Reachable {χ : Type} : SessionState χ → Prop where
  | init : Reachable (initialState χ)
  | step {s : SessionState χ} (h : Reachable s) (inp : RunInput χ) :
      Reachable (scriptRun inp s).1

/-! ## The environment of the executed model code

Name resolution for the code run by
`exec(python_code, globals(), local_scope)` at app.py line 158: the
explicit locals dict, then the module globals dict (plus the Python
builtins, not listed here). -/

/-- The keys of the locals dict built at app.py line 157. -/
def execLocalNames : List String := ["df", "st"]

/-- Module-level names that are bound on every path reaching the `exec`
call at app.py line 158: the four imports (lines 3-6), the model handle
(line 20), the two helper functions, and the module-level variables
assigned at lines 106, 124, 134, 141, 145, 148, 149, 150 and 157.
Names bound only conditionally (such as the render-loop variable of
line 127) are omitted. -/
def execGlobalNames : List String :=
  ["st", "pd", "genai", "json", "model", "get_gemini_response", "create_prompt",
   "uploaded_file", "df", "prompt", "full_prompt", "response_data", "answer",
   "python_code", "fig", "local_scope"]

/-- Whether a global name lookup made by the executed code succeeds
against the two dicts passed to `exec`. -/
def execResolves (n : String) : Bool :=
  execLocalNames.contains n || execGlobalNames.contains n

/-! ## Concrete fixtures used by witnesses and counterexamples -/

/-- A small concrete dataset in the shape of the spec scenario. -/
def sampleDf : Dataframe :=
  { cols := ["Sales", "Region"], rows := [["500", "East"], ["600", "West"]] }

/-- A second, different concrete dataset. -/
def sampleDf2 : Dataframe := { cols := ["Other"], rows := [] }

/-- External collaborators whose model call always returns the given
reply text and whose code execution always has the given outcome. -/
def constExt (reply : Option String) (outcome : ExecOutcome Unit) : Externals Unit :=
  { describe := fun _ => "summary", apiRespond := fun _ => reply,
    runCode := fun _ => outcome, chartTruthy := fun _ => true }

/-! ## C1: bindings reachable from the executed model code -/

/-- C1 is false as stated: the module name `pd` (and likewise every
other module-level name of app.py) is reachable from the executed code,
although it is not one of the two bindings of the locals dict passed to
`exec`, because the call passes the module globals dict as well. -/
theorem c1_counterexample :
    execResolves "pd" = true ∧
    execLocalNames.contains "pd" = false ∧
    execLocalNames = ["df", "st"] := by
  decide

/-- C1 (amended): the `exec` call receives exactly the two local
bindings `df` and `st`, but the module globals dict is passed as well,
so every module-level name of the host program — the imported modules,
the configured model handle, the helper functions and the intermediate
variables — is also reachable from the executed code (in addition to
the Python builtins). -/
theorem c1_amended_exec_bindings :
    execLocalNames = ["df", "st"] ∧
    execGlobalNames.all execResolves = true ∧
    execResolves "model" = true ∧
    execResolves "genai" = true ∧
    execResolves "get_gemini_response" = true := by
  decide

/-! ## C2: effect of uploading on an existing session -/

/-- A session that already holds a dataset and a non-empty transcript. -/
def c2State : SessionState Unit :=
  { dataframe := some sampleDf, messages := [userMessage "old question"] }

/-- C2 is false as stated: with a dataset already stored and a non-empty
transcript, uploading a different valid CSV neither replaces the stored
dataset nor clears the transcript — the upload handler body is guarded
by the dataframe being unset and leaves the session unchanged. -/
theorem c2_counterexample :
    uploadStep (some sampleDf2) c2State = (c2State, {}) ∧
    c2State.dataframe = some sampleDf ∧
    sampleDf ≠ sampleDf2 ∧
    c2State.messages.length = 1 :=
  ⟨rfl, rfl, by decide, rfl⟩

/-- C2 (amended): uploading a new CSV file replaces the stored dataset
with the newly parsed file and clears the transcript only when no
dataset is stored yet; when a dataset is already stored, the upload
handler leaves the dataset and the transcript unchanged. -/
theorem c2_amended_upload_guarded {χ : Type} (s : SessionState χ) (df : Dataframe) :
    (s.dataframe = none →
      uploadStep (some df) s =
        ({ dataframe := some df, messages := [] }, { successShown := true })) ∧
    (∀ d, s.dataframe = some d → uploadStep (some df) s = (s, {})) := by
  constructor
  · intro h
    simp [uploadStep, h]
  · intro d h
    simp [uploadStep, h]

/-- Witness for C2 (amended) at concrete sessions: a fresh session takes
the upload, a session already holding `sampleDf` ignores it. -/
theorem c2_amended_upload_guarded_witness :
    uploadStep (some sampleDf2) (initialState Unit) =
      ({ dataframe := some sampleDf2, messages := [] }, { successShown := true }) ∧
    uploadStep (some sampleDf2) c2State = (c2State, {}) :=
  ⟨(c2_amended_upload_guarded (initialState Unit) sampleDf2).1 rfl,
   (c2_amended_upload_guarded c2State sampleDf2).2 sampleDf rfl⟩

/-! ## C6: state immediately after a successful upload -/

/-- C6: whenever the upload handler shows its success banner, the
transcript is empty afterwards and the stored dataset is exactly the
parsed file, so in particular its column names and its row count are
those of the parsed CSV. -/
theorem c6_upload_roundtrip {χ : Type} (parsed : Option Dataframe) (s : SessionState χ)
    (h : (uploadStep parsed s).2.successShown = true) :
    (uploadStep parsed s).1.messages = [] ∧
    (uploadStep parsed s).1.dataframe = parsed ∧
    ∀ d, parsed = some d →
      (uploadStep parsed s).1.dataframe.map Dataframe.cols = some d.cols ∧
      (uploadStep parsed s).1.dataframe.map (fun x => x.rows.length) = some d.rows.length := by
  rcases hdf : s.dataframe with _ | d0
  · rcases hp : parsed with _ | df
    · simp [uploadStep, hdf, hp] at h
    · refine ⟨?_, ?_, ?_⟩ <;> simp [uploadStep, hdf, hp]
  · simp [uploadStep, hdf] at h

/-- Witness for C6: uploading the sample CSV into a fresh session. -/
theorem c6_upload_roundtrip_witness :
    (uploadStep (some sampleDf) (initialState Unit)).2.successShown = true ∧
    ((uploadStep (some sampleDf) (initialState Unit)).1.messages = [] ∧
     (uploadStep (some sampleDf) (initialState Unit)).1.dataframe = some sampleDf ∧
     ∀ d, (some sampleDf : Option Dataframe) = some d →
       (uploadStep (some sampleDf) (initialState Unit)).1.dataframe.map Dataframe.cols = some d.cols ∧
       (uploadStep (some sampleDf) (initialState Unit)).1.dataframe.map (fun x => x.rows.length) =
         some d.rows.length) :=
  ⟨rfl, c6_upload_roundtrip (some sampleDf) (initialState Unit) rfl⟩

/-! ## C10: fence-stripping removes every fence occurrence -/

/-- A syntactically valid JSON reply whose answer value contains a
backtick fence. -/
def c10Reply : String :=
  "\x7b\"answer\": \"Use ``` to fence.\", \"python_code\": null\x7d"

/-- C10: the cleaning pass removes every occurrence of the two fence
markers anywhere in the reply — leading, trailing and interior — and
consequently a valid JSON reply whose answer value mentions a fence is
altered before it reaches the JSON decoder. -/
theorem c10_fence_stripping_global :
    stripFences " ```json\x7b\"a\": 1\x7d``` " = "\x7b\"a\": 1\x7d" ∧
    stripFences "a```b```json c``` d" = "ab c d" ∧
    jsonParse c10Reply =
      some (Json.obj [("answer", Json.str "Use ``` to fence."), ("python_code", Json.null)]) ∧
    stripFences c10Reply ≠ c10Reply :=
  ⟨rfl, rfl, rfl, by decide⟩

/-! ## C3: replies that are not valid JSON after fence-stripping -/

/-- C3: when the model call returns a text that is not valid JSON after
fence-stripping, the chat handler shows the error banner and appends no
assistant message — the transcript gains only the user entry. -/
theorem c3_invalid_json_no_assistant {χ : Type} (ext : Externals χ) (df : Dataframe)
    (msgs : List (Message χ)) (p t : String)
    (hapi : ext.apiRespond (create_prompt ext.describe df p (msgs ++ [userMessage p])) = some t)
    (hbad : jsonParse (stripFences t) = none) :
    (chatStep ext df msgs p).1 = msgs ++ [userMessage p] ∧
    (chatStep ext df msgs p).2.apiErrorShown = true := by
  simp [chatStep, get_gemini_response, hapi, hbad]

/-- Witness for C3: a reply that is plain prose. -/
theorem c3_invalid_json_no_assistant_witness :
    (chatStep (constExt (some "this is not json") ExecOutcome.raised) sampleDf [] "What now?").1 =
      [] ++ [userMessage "What now?"] ∧
    (chatStep (constExt (some "this is not json") ExecOutcome.raised) sampleDf [] "What now?").2.apiErrorShown
      = true :=
  c3_invalid_json_no_assistant (constExt (some "this is not json") ExecOutcome.raised)
    sampleDf [] "What now?" "this is not json" rfl rfl

/-! ## C5: replies without python_code produce no chart -/

/-- C5: for a successfully decoded, processed object reply whose
`python_code` is absent or null, no code is executed and the appended
assistant message carries a null chart. -/
theorem c5_no_code_no_chart {χ : Type} (ext : Externals χ) (df : Dataframe)
    (msgs : List (Message χ)) (p t : String) (kvs : List (String × Json))
    (hapi : ext.apiRespond (create_prompt ext.describe df p (msgs ++ [userMessage p])) = some t)
    (hjson : jsonParse (stripFences t) = some (Json.obj kvs))
    (htr : (Json.obj kvs).isTruthy = true)
    (hcode : (dictGet kvs "python_code").getD Json.null = Json.null) :
    (chatStep ext df msgs p).1 =
      msgs ++ [userMessage p,
        { role := "assistant",
          content := (dictGet kvs "answer").getD (Json.str defaultAnswer),
          chart := none }] ∧
    (chatStep ext df msgs p).2.execRan = false ∧
    (chatStep ext df msgs p).2.chartShown = false := by
  have hnull : Json.null.isTruthy = false := rfl
  simp [chatStep, get_gemini_response, hapi, hjson, htr, hcode, hnull]

/-- Witness for C5: the spec scenario reply with a text answer and a
null `python_code`. -/
theorem c5_no_code_no_chart_witness :
    (chatStep (constExt (some "\x7b\"answer\": \"The average Sales is 550.\", \"python_code\": null\x7d")
        ExecOutcome.raised) sampleDf [] "What is the average Sales?").1 =
      [] ++ [userMessage "What is the average Sales?",
        { role := "assistant",
          content := (dictGet [("answer", Json.str "The average Sales is 550."), ("python_code", Json.null)]
            "answer").getD (Json.str defaultAnswer),
          chart := none }] ∧
    (chatStep (constExt (some "\x7b\"answer\": \"The average Sales is 550.\", \"python_code\": null\x7d")
        ExecOutcome.raised) sampleDf [] "What is the average Sales?").2.execRan = false ∧
    (chatStep (constExt (some "\x7b\"answer\": \"The average Sales is 550.\", \"python_code\": null\x7d")
        ExecOutcome.raised) sampleDf [] "What is the average Sales?").2.chartShown = false :=
  c5_no_code_no_chart
    (constExt (some "\x7b\"answer\": \"The average Sales is 550.\", \"python_code\": null\x7d")
      ExecOutcome.raised)
    sampleDf [] "What is the average Sales?"
    "\x7b\"answer\": \"The average Sales is 550.\", \"python_code\": null\x7d"
    [("answer", Json.str "The average Sales is 550."), ("python_code", Json.null)]
    rfl rfl rfl rfl

/-! ## C4: replies whose code raises during execution -/

/-- C4: when the supplied `python_code` is truthy and its execution
raises, the appended assistant message has the answer text with the
fixed error note appended and a null chart; no chart is rendered, the
execution-error banner is shown, and the (suffixed) answer text is still
displayed. -/
theorem c4_exec_error_note {χ : Type} (ext : Externals χ) (df : Dataframe)
    (msgs : List (Message χ)) (p t a : String) (kvs : List (String × Json)) (code : Json)
    (hapi : ext.apiRespond (create_prompt ext.describe df p (msgs ++ [userMessage p])) = some t)
    (hjson : jsonParse (stripFences t) = some (Json.obj kvs))
    (htr : (Json.obj kvs).isTruthy = true)
    (hans : (dictGet kvs "answer").getD (Json.str defaultAnswer) = Json.str a)
    (hcode : (dictGet kvs "python_code").getD Json.null = code)
    (hct : code.isTruthy = true)
    (hrun : ext.runCode code = ExecOutcome.raised) :
    (chatStep ext df msgs p).1 =
      msgs ++ [userMessage p,
        { role := "assistant", content := Json.str (a ++ errorNote), chart := none }] ∧
    (chatStep ext df msgs p).2.chartShown = false ∧
    (chatStep ext df msgs p).2.execErrorShown = true ∧
    (chatStep ext df msgs p).2.displayedAnswer = some (Json.str (a ++ errorNote)) := by
  simp [chatStep, get_gemini_response, hapi, hjson, htr, hans, hcode, hct, hrun]

/-- Witness for C4: a reply with answer text and code whose execution
raises. -/
theorem c4_exec_error_note_witness :
    (chatStep (constExt (some "\x7b\"answer\": \"Here is a histogram.\", \"python_code\": \"fig = oops\"\x7d")
        ExecOutcome.raised) sampleDf [] "Plot Sales").1 =
      [] ++ [userMessage "Plot Sales",
        { role := "assistant", content := Json.str ("Here is a histogram." ++ errorNote),
          chart := none }] ∧
    (chatStep (constExt (some "\x7b\"answer\": \"Here is a histogram.\", \"python_code\": \"fig = oops\"\x7d")
        ExecOutcome.raised) sampleDf [] "Plot Sales").2.chartShown = false ∧
    (chatStep (constExt (some "\x7b\"answer\": \"Here is a histogram.\", \"python_code\": \"fig = oops\"\x7d")
        ExecOutcome.raised) sampleDf [] "Plot Sales").2.execErrorShown = true ∧
    (chatStep (constExt (some "\x7b\"answer\": \"Here is a histogram.\", \"python_code\": \"fig = oops\"\x7d")
        ExecOutcome.raised) sampleDf [] "Plot Sales").2.displayedAnswer =
      some (Json.str ("Here is a histogram." ++ errorNote)) :=
  c4_exec_error_note
    (constExt (some "\x7b\"answer\": \"Here is a histogram.\", \"python_code\": \"fig = oops\"\x7d")
      ExecOutcome.raised)
    sampleDf [] "Plot Sales"
    "\x7b\"answer\": \"Here is a histogram.\", \"python_code\": \"fig = oops\"\x7d"
    "Here is a histogram."
    [("answer", Json.str "Here is a histogram."), ("python_code", Json.str "fig = oops")]
    (Json.str "fig = oops")
    rfl rfl rfl rfl rfl rfl rfl

/-! ## C9: fallback answer text when the answer key is absent -/

/-- External behaviour whose reply lacks the answer key, carries code,
and whose code execution raises. -/
def c9Ext : Externals Unit :=
  constExt (some "\x7b\"python_code\": \"fig = oops\"\x7d") ExecOutcome.raised

/-- C9 is false as stated: for a reply lacking the `answer` key whose
`python_code` raises during execution, the appended assistant text is
the default fallback string with the fixed error note appended, not the
bare default fallback string. -/
theorem c9_counterexample :
    (chatStep c9Ext sampleDf [] "Plot something").1 =
      [userMessage "Plot something",
       { role := "assistant", content := Json.str (defaultAnswer ++ errorNote), chart := none }] ∧
    defaultAnswer ++ errorNote ≠ defaultAnswer :=
  ⟨rfl, by decide⟩

/-- C9 (amended): for every processed object reply lacking the `answer`
key, the extracted answer falls back to the fixed default string, so
the appended assistant text is never absent: it is the default fallback
string, or the default fallback string with the fixed error note
appended when the supplied code raised during execution. -/
theorem c9_amended_default_answer {χ : Type} (ext : Externals χ) (df : Dataframe)
    (msgs : List (Message χ)) (p t : String) (kvs : List (String × Json))
    (hapi : ext.apiRespond (create_prompt ext.describe df p (msgs ++ [userMessage p])) = some t)
    (hjson : jsonParse (stripFences t) = some (Json.obj kvs))
    (htr : (Json.obj kvs).isTruthy = true)
    (hans : dictGet kvs "answer" = none) :
    ∃ m : Message χ, (chatStep ext df msgs p).1 = msgs ++ [userMessage p, m] ∧
      m.role = "assistant" ∧
      (m.content = Json.str defaultAnswer ∨
       m.content = Json.str (defaultAnswer ++ errorNote)) := by
  by_cases hct : ((dictGet kvs "python_code").getD Json.null).isTruthy = true
  · rcases hrun : ext.runCode ((dictGet kvs "python_code").getD Json.null) with fig | _
    · refine ⟨⟨"assistant", Json.str defaultAnswer, fig⟩, ?_, rfl, Or.inl rfl⟩
      simp [chatStep, get_gemini_response, hapi, hjson, htr, hans, hct, hrun]
    · refine ⟨⟨"assistant", Json.str (defaultAnswer ++ errorNote), none⟩, ?_, rfl, Or.inr rfl⟩
      simp [chatStep, get_gemini_response, hapi, hjson, htr, hans, hct, hrun]
  · simp only [Bool.not_eq_true] at hct
    refine ⟨⟨"assistant", Json.str defaultAnswer, none⟩, ?_, rfl, Or.inl rfl⟩
    simp [chatStep, get_gemini_response, hapi, hjson, htr, hans, hct]

/-- Witness for C9 (amended): a reply carrying only a null
`python_code`. -/
theorem c9_amended_default_answer_witness :
    ∃ m : Message Unit,
      (chatStep (constExt (some "\x7b\"python_code\": null\x7d") (ExecOutcome.ok none))
          sampleDf [] "Anything?").1 = [] ++ [userMessage "Anything?", m] ∧
      m.role = "assistant" ∧
      (m.content = Json.str defaultAnswer ∨
       m.content = Json.str (defaultAnswer ++ errorNote)) :=
  c9_amended_default_answer (constExt (some "\x7b\"python_code\": null\x7d") (ExecOutcome.ok none))
    sampleDf [] "Anything?" "\x7b\"python_code\": null\x7d" [("python_code", Json.null)]
    rfl rfl rfl rfl

/-! ## C8: startup configuration failure halts the script -/

/-- C8: when reading the secret or configuring the API fails, the script
shows the configuration error banner and halts with the session
untouched, before the upload handler or the chat handler can run; when
configuration succeeds, the run proceeds (it is not halted and no
configuration error is shown). -/
theorem c8_config_failure_halts {χ : Type} (inp : RunInput χ) (s : SessionState χ) :
    (inp.configOk = false →
      scriptRun inp s = (s, { configErrorShown := true, halted := true })) ∧
    (inp.configOk = true →
      (scriptRun inp s).2.halted = false ∧
      (scriptRun inp s).2.configErrorShown = false) := by
  constructor
  · intro h
    simp [scriptRun, h]
  · intro h
    simp only [scriptRun, h, if_true]
    split <;> split <;> simp_all

/-- Witness for C8 at concrete runs: a failing configuration halts a
session holding the sample state untouched; a succeeding one
proceeds. -/
theorem c8_config_failure_halts_witness :
    scriptRun
        { configOk := false, uploadedFile := some (some sampleDf), chatInput := some "q",
          ext := constExt none ExecOutcome.raised } c2State =
      (c2State, { configErrorShown := true, halted := true }) ∧
    ((scriptRun
        { configOk := true, uploadedFile := some (some sampleDf), chatInput := some "q",
          ext := constExt none ExecOutcome.raised } c2State).2.halted = false ∧
     (scriptRun
        { configOk := true, uploadedFile := some (some sampleDf), chatInput := some "q",
          ext := constExt none ExecOutcome.raised } c2State).2.configErrorShown = false) :=
  ⟨(c8_config_failure_halts
      { configOk := false, uploadedFile := some (some sampleDf), chatInput := some "q",
        ext := constExt none ExecOutcome.raised } c2State).1 rfl,
   (c8_config_failure_halts
      { configOk := true, uploadedFile := some (some sampleDf), chatInput := some "q",
        ext := constExt none ExecOutcome.raised } c2State).2 rfl⟩

/-! ## C7: shape of the transcript across reachable states -/

/-- Helper: the two single-element appends of one chat exchange. -/
theorem list_append_pair {α : Type} (xs : List α) (u m : α) :
    (xs ++ [u]) ++ [m] = xs ++ [u, m] := by
  simp

/-- One execution of the chat handler either appends just the user entry
(failed or crashed exchange) or the user entry followed by one assistant
entry (completed exchange). -/
theorem chatStep_messages_shape {χ : Type} (ext : Externals χ) (df : Dataframe)
    (msgs : List (Message χ)) (p : String) :
    (chatStep ext df msgs p).1 = msgs ++ [userMessage p] ∨
    ∃ m : Message χ, (chatStep ext df msgs p).1 = msgs ++ [userMessage p, m] ∧
      m.role = "assistant" := by
  rcases hg : get_gemini_response ext.apiRespond
      (create_prompt ext.describe df p (msgs ++ [userMessage p])) with ⟨j, e⟩
  rcases j with _ | rd
  · left
    simp [chatStep, hg]
  · by_cases ht : rd.isTruthy = true
    · rcases rd with _ | b | raw | sv | elems | kvs
      · left
        simp [chatStep, hg, ht]
      · left
        simp [chatStep, hg, ht]
      · left
        simp [chatStep, hg, ht]
      · left
        simp [chatStep, hg, ht]
      · left
        simp [chatStep, hg, ht]
      · by_cases hct : ((dictGet kvs "python_code").getD Json.null).isTruthy = true
        · rcases hrun : ext.runCode ((dictGet kvs "python_code").getD Json.null) with fig | _
          · right
            refine ⟨⟨"assistant", (dictGet kvs "answer").getD (Json.str defaultAnswer), fig⟩,
              ?_, rfl⟩
            simp [chatStep, hg, ht, hct, hrun]
          · rcases hans : (dictGet kvs "answer").getD (Json.str defaultAnswer)
                with _ | b | raw | a | elems2 | kvs2
            · left
              simp [chatStep, hg, ht, hct, hrun, hans]
            · left
              simp [chatStep, hg, ht, hct, hrun, hans]
            · left
              simp [chatStep, hg, ht, hct, hrun, hans]
            · right
              refine ⟨⟨"assistant", Json.str (a ++ errorNote), none⟩, ?_, rfl⟩
              simp [chatStep, hg, ht, hct, hrun, hans]
            · left
              simp [chatStep, hg, ht, hct, hrun, hans]
            · left
              simp [chatStep, hg, ht, hct, hrun, hans]
        · right
          refine ⟨⟨"assistant", (dictGet kvs "answer").getD (Json.str defaultAnswer), none⟩,
            ?_, rfl⟩
          simp [chatStep, hg, ht, hct]
    · left
      simp [chatStep, hg, ht]

/-- One execution of the upload handler either keeps the transcript or
clears it. -/
theorem uploadStep_messages_shape {χ : Type} (parsed : Option Dataframe)
    (s : SessionState χ) :
    (uploadStep parsed s).1.messages = s.messages ∨
    (uploadStep parsed s).1.messages = [] := by
  rcases h : s.dataframe with _ | d
  · rcases parsed with _ | df
    · left
      simp [uploadStep, h]
    · right
      simp [uploadStep, h]
  · left
    simp [uploadStep, h]

/-- One full script run starts from the prior transcript or from a
cleared one, and adds nothing, one user entry, or one user entry
followed by one assistant entry. -/
theorem scriptRun_messages_shape {χ : Type} (inp : RunInput χ) (s : SessionState χ) :
    ∃ base : List (Message χ), (base = s.messages ∨ base = []) ∧
      ((scriptRun inp s).1.messages = base ∨
       (∃ p, (scriptRun inp s).1.messages = base ++ [userMessage p]) ∨
       (∃ p m, (scriptRun inp s).1.messages = base ++ [userMessage p, m] ∧
         Message.role m = "assistant")) := by
  by_cases hc : inp.configOk = true
  · rcases hu : inp.uploadedFile with _ | parsed
    · rcases hdf : s.dataframe with _ | df
      · exact ⟨s.messages, Or.inl rfl, Or.inl (by simp [scriptRun, hc, hu, hdf])⟩
      · rcases hci : inp.chatInput with _ | p
        · exact ⟨s.messages, Or.inl rfl, Or.inl (by simp [scriptRun, hc, hu, hdf, hci])⟩
        · rcases chatStep_messages_shape inp.ext df s.messages p with h1 | ⟨m, h1, h2⟩
          · refine ⟨s.messages, Or.inl rfl, Or.inr (Or.inl ⟨p, ?_⟩)⟩
            simpa [scriptRun, hc, hu, hdf, hci] using h1
          · refine ⟨s.messages, Or.inl rfl, Or.inr (Or.inr ⟨p, m, ?_, h2⟩)⟩
            simpa [scriptRun, hc, hu, hdf, hci] using h1
    · rcases hdf : (uploadStep parsed s).1.dataframe with _ | df
      · exact ⟨(uploadStep parsed s).1.messages, uploadStep_messages_shape parsed s,
          Or.inl (by simp [scriptRun, hc, hu, hdf])⟩
      · rcases hci : inp.chatInput with _ | p
        · exact ⟨(uploadStep parsed s).1.messages, uploadStep_messages_shape parsed s,
            Or.inl (by simp [scriptRun, hc, hu, hdf, hci])⟩
        · rcases chatStep_messages_shape inp.ext df (uploadStep parsed s).1.messages p
              with h1 | ⟨m, h1, h2⟩
          · refine ⟨(uploadStep parsed s).1.messages, uploadStep_messages_shape parsed s,
              Or.inr (Or.inl ⟨p, ?_⟩)⟩
            simpa [scriptRun, hc, hu, hdf, hci] using h1
          · refine ⟨(uploadStep parsed s).1.messages, uploadStep_messages_shape parsed s,
              Or.inr (Or.inr ⟨p, m, ?_, h2⟩)⟩
            simpa [scriptRun, hc, hu, hdf, hci] using h1
  · simp only [Bool.not_eq_true] at hc
    exact ⟨s.messages, Or.inl rfl, Or.inl (by simp [scriptRun, hc])⟩

/-- Shape of a transcript as a sequence of exchange blocks: `c` counts
completed exchanges (a user entry followed by an assistant entry), `f`
counts failed exchanges (a user entry with no reply). -/
inductive TranscriptShape {χ : Type} : List (Message χ) → Nat → Nat → Prop where
  | nil : TranscriptShape [] 0 0
  | failedEx {t : List (Message χ)} {c f : Nat} (m : Message χ)
      (hm : m.role = "user") (h : TranscriptShape t c f) :
      TranscriptShape (t ++ [m]) c (f + 1)
  | completedEx {t : List (Message χ)} {c f : Nat} (u a : Message χ)
      (hu : u.role = "user") (ha : a.role = "assistant") (h : TranscriptShape t c f) :
      TranscriptShape (t ++ [u, a]) (c + 1) f

/-- A transcript of shape `(c, f)` has length `2 * c + f`. -/
theorem TranscriptShape.len {χ : Type} {t : List (Message χ)} {c f : Nat}
    (h : TranscriptShape t c f) : t.length = 2 * c + f := by
  induction h with
  | nil => rfl
  | failedEx m hm h ih =>
    simp only [List.length_append, List.length_cons, List.length_nil]
    omega
  | completedEx u a hu ha h ih =>
    simp only [List.length_append, List.length_cons, List.length_nil]
    omega

/-- External behaviour whose model call always raises. -/
def failExt : Externals Unit := constExt none ExecOutcome.raised

/-- First run: upload the sample CSV. -/
def c7Inp1 : RunInput Unit :=
  { configOk := true, uploadedFile := some (some sampleDf), chatInput := none, ext := failExt }

/-- Second run: ask a question while the model call raises. -/
def c7Inp2 : RunInput Unit :=
  { configOk := true, uploadedFile := none, chatInput := some "q1", ext := failExt }

/-- Third run: ask another question while the model call raises. -/
def c7Inp3 : RunInput Unit :=
  { configOk := true, uploadedFile := none, chatInput := some "q2", ext := failExt }

/-- The session state after the three runs above. -/
def c7BadState : SessionState Unit :=
  (scriptRun c7Inp3 (scriptRun c7Inp2 (scriptRun c7Inp1 (initialState Unit)).1).1).1

/-- C7 is false as stated: after an upload and two exchanges whose model
calls fail, the reachable transcript holds two user entries and no
assistant entry — two unmatched user messages — so its length is
neither twice the number of completed exchanges nor that plus a single
trailing user entry. -/
theorem c7_counterexample :
    Reachable c7BadState ∧
    c7BadState.messages = [userMessage "q1", userMessage "q2"] ∧
    c7BadState.messages.countP (fun m => m.role == "assistant") = 0 ∧
    c7BadState.messages.length = 2 ∧
    ¬(c7BadState.messages.length =
        2 * c7BadState.messages.countP (fun m => m.role == "assistant") ∨
      c7BadState.messages.length =
        2 * c7BadState.messages.countP (fun m => m.role == "assistant") + 1) := by
  refine ⟨Reachable.step (Reachable.step (Reachable.step Reachable.init c7Inp1) c7Inp2) c7Inp3,
    rfl, rfl, rfl, ?_⟩
  decide

/-- C7 (amended): every reachable transcript is a sequence of exchange
blocks — each a user entry alone (an exchange that produced no reply)
or a user entry followed by its assistant reply — so its length is
twice the number of completed exchanges plus the number of failed
exchanges; failed exchanges leave unmatched user entries behind, and
several of them can accumulate. -/
theorem c7_amended_transcript {χ : Type} (s : SessionState χ) (h : Reachable s) :
    ∃ c f, TranscriptShape s.messages c f ∧ s.messages.length = 2 * c + f := by
  induction h with
  | init => exact ⟨0, 0, TranscriptShape.nil, rfl⟩
  | @step s0 h0 inp ih =>
    obtain ⟨c, f, hshape, _⟩ := ih
    obtain ⟨base, hbase, hres⟩ := scriptRun_messages_shape inp s0
    have hbshape : ∃ cb fb, TranscriptShape base cb fb := by
      rcases hbase with rfl | rfl
      · exact ⟨c, f, hshape⟩
      · exact ⟨0, 0, TranscriptShape.nil⟩
    obtain ⟨cb, fb, hbs⟩ := hbshape
    rcases hres with h1 | ⟨p, h1⟩ | ⟨p, m, h1, h2⟩
    · exact ⟨cb, fb, by rw [h1]; exact hbs, by rw [h1]; exact hbs.len⟩
    · have hs2 : TranscriptShape (base ++ [userMessage p]) cb (fb + 1) :=
        TranscriptShape.failedEx (userMessage p) rfl hbs
      exact ⟨cb, fb + 1, by rw [h1]; exact hs2, by rw [h1]; exact hs2.len⟩
    · have hs2 : TranscriptShape (base ++ [userMessage p, m]) (cb + 1) fb :=
        TranscriptShape.completedEx (userMessage p) m rfl h2 hbs
      exact ⟨cb + 1, fb, by rw [h1]; exact hs2, by rw [h1]; exact hs2.len⟩

/-- First witness run for C7 (amended): upload the sample CSV. -/
def c7wUpload : RunInput Unit :=
  { configOk := true, uploadedFile := some (some sampleDf), chatInput := none,
    ext := failExt }

/-- Second witness run for C7 (amended): a completed exchange. -/
def c7wChat : RunInput Unit :=
  { configOk := true, uploadedFile := none, chatInput := some "What is the average Sales?",
    ext := constExt (some "\x7b\"answer\": \"550\", \"python_code\": null\x7d")
      (ExecOutcome.ok none) }

/-- Witness for C7 (amended): the state after an upload and one
completed exchange is reachable and its transcript has a shape. -/
theorem c7_amended_transcript_witness :
    ∃ c f,
      TranscriptShape
        ((scriptRun c7wChat (scriptRun c7wUpload (initialState Unit)).1).1).messages c f ∧
      ((scriptRun c7wChat (scriptRun c7wUpload (initialState Unit)).1).1).messages.length =
        2 * c + f :=
  c7_amended_transcript _ (Reachable.step (Reachable.step Reachable.init c7wUpload) c7wChat)
